import Mathlib

/-!
Formal model of the Yuslash/tracking-dashboard repository.

The tracker (src/Tracking/tracker.py) is a 1-second sampling loop
(ActivityTracker.run) over signals (foreground process name, idle seconds).
Times are modelled as rationals (Python time.time is a float; one instant per
tick).  Fallible persistence calls are modelled with Except: pymongo's
update_one raises when the server is unreachable, and tracker.py wraps no
try/except around it, so an error aborts the run.  A MongoClient that was None
from startup is the Conn.disconnected case, which update_database skips with a
log line.

The dashboard (src/dashboard/dashboard.py) staleness monitor
(UserStatusFrame.update_user_list) is modelled as a pure derivation over a
snapshot of stored records.
-/

namespace Tracking

/-- Configuration constant (tracker.py line 15). -/
def IDLE_THRESHOLD_SECONDS : ℚ := 60

/-- Configuration constant (tracker.py line 16). -/
def SWITCH_CONFIRM_SECONDS : ℚ := 3

/-- Write-side escaping of an application name before use as a Mongo field-path
segment: `activity_name.replace('.', '_')` (tracker.py line 127).  A
single-character Python str.replace is a character map. -/
def safe_app_name (s : String) : String :=
  String.mk (s.data.map (fun c => if c = '.' then '_' else c))

/-- Read-side unescaping `app_name_safe.replace('_', '.')` (tracker.py line
301, dashboard.py lines 269 and 276). -/
def unescape_app_name (s : String) : String :=
  String.mk (s.data.map (fun c => if c = '_' then '.' else c))

/-- State of the MongoDB client as the tracker sees it.
`disconnected` is `client = None` (the except branch at tracker.py line 27);
`ok` is a reachable server; `failing` is a client object whose `update_one`
raises (server unreachable at write time). -/
inductive Conn where
  | disconnected
  | ok
  | failing
deriving Repr, DecidableEq

/-- One `$inc` issued by `collection.update_one` in update_database
(tracker.py line 130): document key, incremented field path, amount, and the
`$setOnInsert` identity fields. -/
structure Increment where
  doc_id : String
  update_field : String
  amount : ℚ
  set_user_id : String
  set_date : String
deriving Repr, DecidableEq

/-- ActivityTracker.update_database (tracker.py lines 115-130).
Returns the increment it issues (if any); `Except.error` models the uncaught
exception `collection.update_one` raises on a failing connection. -/
def update_database (conn : Conn) (user_id today_str activity_name : String)
    (duration_seconds : ℚ) : Except String (Option Increment) :=
  if duration_seconds < 1 ∨ activity_name = "" ∨ activity_name = "Unknown" then
    Except.ok none
  else
    match conn with
    | Conn.disconnected => Except.ok none
    | Conn.failing => Except.error "ServerSelectionTimeoutError"
    | Conn.ok =>
        let doc_id := user_id ++ "_" ++ today_str
        let update_field :=
          if activity_name = "idle" then "total_idle_seconds"
          else "applications." ++ safe_app_name activity_name
        Except.ok (some ⟨doc_id, update_field, duration_seconds, user_id, today_str⟩)

/-- The mutable fields of ActivityTracker (tracker.py lines 55-59). -/
structure TrackerState where
  current_app : String
  start_time : ℚ
  idle : Bool
  potential_next_app : String
  switch_pending_time : Option ℚ
deriving Repr, DecidableEq

/-- ActivityTracker.clear_pending_switch (tracker.py lines 99-101). -/
def clear_pending (s : TrackerState) : TrackerState :=
  { s with potential_next_app := "", switch_pending_time := none }

/-- One signal sample taken at the top of a loop iteration: the tick instant
(time.time), get_active_app() and get_idle_time(). -/
structure Sample where
  t : ℚ
  active_app : String
  idle_seconds : ℚ
deriving Repr, DecidableEq

/-- Per-run configuration: the connection state, getpass.getuser(), and the
wall-clock date string `datetime.now().strftime("%Y-%m-%d")` as a function of
the instant (so the date is taken at flush time). -/
structure Config where
  conn : Conn
  user_id : String
  date_of : ℚ → String

/-- ActivityTracker.handle_potential_switch (tracker.py lines 87-97).
If the pending time were None while the candidate matches, the Python
subtraction `time.time() - self.switch_pending_time` would raise a TypeError;
that corner is the `Except.error` branch. -/
def handle_potential_switch (cfg : Config) (now : ℚ) (active_app_name : String)
    (s : TrackerState) : Except String (TrackerState × List Increment) :=
  if s.potential_next_app ≠ active_app_name then
    Except.ok ({ s with potential_next_app := active_app_name,
                        switch_pending_time := some now }, [])
  else
    match s.switch_pending_time with
    | none => Except.error "TypeError: switch_pending_time is None"
    | some pending =>
        if now - pending > SWITCH_CONFIRM_SECONDS then
          match update_database cfg.conn cfg.user_id (cfg.date_of now)
              s.current_app (pending - s.start_time) with
          | Except.error e => Except.error e
          | Except.ok inc =>
              Except.ok (clear_pending
                { s with current_app := s.potential_next_app,
                         start_time := pending }, inc.toList)
        else
          Except.ok (s, [])

/-- One iteration of the while loop in ActivityTracker.run (tracker.py lines
64-85), given the sample taken at its top.  Returns the successor state and
the increments issued during the iteration; `Except.error` is an exception
propagating out of the loop body (killing the thread). -/
def step (cfg : Config) (s : TrackerState) (smp : Sample) :
    Except String (TrackerState × List Increment) :=
  if smp.idle_seconds > IDLE_THRESHOLD_SECONDS then
    if s.idle then
      Except.ok (s, [])
    else
      match update_database cfg.conn cfg.user_id (cfg.date_of smp.t)
          s.current_app (smp.t - s.start_time) with
      | Except.error e => Except.error e
      | Except.ok inc =>
          Except.ok (clear_pending { s with idle := true, start_time := smp.t },
            inc.toList)
  else
    match (if s.idle then
        match update_database cfg.conn cfg.user_id (cfg.date_of smp.t)
            "idle" (smp.t - s.start_time) with
        | Except.error e => Except.error e
        | Except.ok inc =>
            Except.ok ({ s with idle := false, current_app := smp.active_app,
                                start_time := smp.t }, inc.toList)
      else
        Except.ok (s, ([] : List Increment))) with
    | Except.error e => Except.error e
    | Except.ok (s1, evs1) =>
        if smp.active_app ≠ s1.current_app then
          match handle_potential_switch cfg smp.t smp.active_app s1 with
          | Except.error e => Except.error e
          | Except.ok (s2, evs2) => Except.ok (s2, evs1 ++ evs2)
        else
          Except.ok (clear_pending s1, evs1)

/-- The while loop of ActivityTracker.run over a finite list of samples (the
samples taken while self.running stayed True).  An exception aborts the run:
the remaining samples are never processed. -/
def run_trace (cfg : Config) (s : TrackerState) :
    List Sample → Except String (TrackerState × List Increment)
  | [] => Except.ok (s, [])
  | smp :: rest =>
      match step cfg s smp with
      | Except.error e => Except.error e
      | Except.ok (s1, evs1) =>
          match run_trace cfg s1 rest with
          | Except.error e => Except.error e
          | Except.ok (s2, evs2) => Except.ok (s2, evs1 ++ evs2)

/-- The initialization at the top of ActivityTracker.run (tracker.py lines
62-63): current_app is the first sample, start_time is now, and __init__ left
idle False and the pending switch clear. -/
def init_state (first_app : String) (t0 : ℚ) : TrackerState :=
  ⟨first_app, t0, false, "", none⟩

/-- ActivityTracker.stop (tracker.py lines 132-138): the final flush of the
open segment (self.running := False is the end of the sample list in
run_trace). -/
def stop (cfg : Config) (s : TrackerState) (now : ℚ) :
    Except String (Option Increment) :=
  if s.idle then
    update_database cfg.conn cfg.user_id (cfg.date_of now) "idle"
      (now - s.start_time)
  else
    update_database cfg.conn cfg.user_id (cfg.date_of now) s.current_app
      (now - s.start_time)

/-- A constant run of samples: app `a`, idle 0, at instants
base, base + 1, ... (1-second ticks), used to state trace-level claims. -/
def const_trace (a : String) : ℚ → ℕ → List Sample
  | _, 0 => []
  | base, Nat.succ n => ⟨base, a, 0⟩ :: const_trace a (base + 1) n

end Tracking

namespace Dashboard

open Tracking

/-- STALE_THRESHOLD: `timedelta(minutes=2)` (dashboard.py line 174), in
seconds. -/
def STALE_THRESHOLD : ℚ := 120

/-- A Python datetime as the dashboard sees it: `utc_val` is the instant the
stored clock fields denote when read as UTC (pymongo hands back naive UTC
datetimes), `aware` is whether tzinfo is present. -/
structure PyDateTime where
  utc_val : ℚ
  aware : Bool
deriving Repr, DecidableEq

/-- `last_seen.replace(tzinfo=timezone.utc)` (dashboard.py line 172):
reinterprets the same clock fields as UTC. -/
def replace_tz_utc (d : PyDateTime) : PyDateTime :=
  { d with aware := true }

/-- One stored daily_summary record as projected by the aggregation pipeline
(dashboard.py line 163): user_id, status, last_seen, applications,
offline_reason.  Fields other than user_id may be absent. -/
structure StoredRecord where
  user_id : String
  status : Option String
  offline_reason : Option String
  last_seen : Option PyDateTime
  applications : List (String × ℚ)
deriving Repr, DecidableEq

/-- Python `int()` truncation toward zero of a rational. -/
def pytrunc (q : ℚ) : ℤ :=
  Int.tdiv q.num q.den

/-- Zero-padding of a minutes/seconds component (str(timedelta) pads them to
two digits). -/
def two_digits (n : ℤ) : String :=
  (if n < 10 then "0" else "") ++ toString n

/-- The dashboard format_seconds (dashboard.py lines 116-117):
`str(timedelta(seconds=int(seconds)))` — timedelta normalizes to whole days
plus a remainder in [0, 86400). -/
def format_seconds (seconds : ℚ) : String :=
  let n : ℤ := pytrunc seconds
  let days : ℤ := n.fdiv 86400
  let r : ℤ := n.emod 86400
  let h : ℤ := r.fdiv 3600
  let m : ℤ := (r.emod 3600).fdiv 60
  let s : ℤ := r.emod 60
  (if days = 0 then ""
   else toString days ++ (if days = 1 ∨ days = -1 then " day, " else " days, "))
    ++ toString h ++ ":" ++ two_digits m ++ ":" ++ two_digits s

/-- One row of the user-status table built by update_user_list (dashboard.py
line 177). -/
structure UserRow where
  id : String
  status : String
  reason : String
  time : String
deriving Repr, DecidableEq

/-- The per-record body of the loop in UserStatusFrame.update_user_list
(dashboard.py lines 166-177): default the stored status to "Offline" and the
reason to "", normalize a naive last_seen to UTC, and re-label a stale Online
record as Offline / "Connection timeout" in the derived row only. -/
def derive_row (now_utc : ℚ) (doc : StoredRecord) : UserRow :=
  let status0 := doc.status.getD "Offline"
  let reason0 := doc.offline_reason.getD ""
  let last_seen := doc.last_seen.map (fun d => if d.aware then d else replace_tz_utc d)
  let sr : String × String :=
    match last_seen with
    | some d =>
        if status0 = "Online" ∧ now_utc - d.utc_val > STALE_THRESHOLD then
          ("Offline", "Connection timeout")
        else (status0, reason0)
    | none => (status0, reason0)
  { id := doc.user_id, status := sr.1, reason := sr.2,
    time := format_seconds ((doc.applications.map Prod.snd).sum) }

/-- UserStatusFrame.update_user_list (dashboard.py lines 160-179) over the
snapshot fetched by the aggregation: a pure, per-record derivation producing
display rows; it issues no write against the store. -/
def update_user_list (now_utc : ℚ) (docs : List StoredRecord) : List UserRow :=
  docs.map (derive_row now_utc)

end Dashboard

namespace Presence

open Tracking

/-- Modelled from the spec: HEARTBEAT_SECONDS = 30 (spec section 6); the
Presence Publisher does not appear in the tracker revision under src/. -/
def HEARTBEAT_SECONDS : ℚ := 30

/-- Modelled from the spec: one presence write of the Presence Publisher
contract `publish(status, reason=None)` — status, last_seen = now(UTC), and
optionally offline_reason (spec section 4.3).  The publisher itself is absent
from src/ (the dashboard reads the status, last_seen and offline_reason
fields it is specified to write). -/
structure PresenceWrite where
  status : String
  last_seen : ℚ
  reason : Option String
deriving Repr, DecidableEq

/-- Modelled from the spec: the status the publisher asserts for the current
classification — Online while Active, Idle while idle (spec sections 4.1 and
4.3). -/
def status_of (s : TrackerState) : String :=
  if s.idle then "Idle" else "Online"

/-- Modelled from the spec: the heartbeat cadence is evaluated inside the
sampling loop by comparing elapsed time since the last heartbeat to
HEARTBEAT_SECONDS (spec section 5), re-asserting the current status. -/
def heartbeat_check (now : ℚ) (status : String) (last_heartbeat : ℚ) :
    ℚ × List PresenceWrite :=
  if now - last_heartbeat ≥ HEARTBEAT_SECONDS then
    (now, [⟨status, now, none⟩])
  else
    (last_heartbeat, [])

/-- Tracker state extended with the Presence Publisher's heartbeat clock. -/
structure FullState where
  trk : TrackerState
  last_heartbeat : ℚ
deriving Repr, DecidableEq

/-- Modelled from the spec: one sampling tick together with the Presence
Publisher — the code's step (tracker.py lines 64-85), then a presence write on
every Idle/Active transition (spec section 4.1 steps 1-2) and the 30 s
heartbeat re-assertion independent of transitions (spec section 4.3). -/
def full_step (cfg : Config) (fs : FullState) (smp : Sample) :
    Except String (FullState × List Increment × List PresenceWrite) :=
  match step cfg fs.trk smp with
  | Except.error e => Except.error e
  | Except.ok (trk1, incs) =>
      let trans_writes : List PresenceWrite :=
        if fs.trk.idle ≠ trk1.idle then [⟨status_of trk1, smp.t, none⟩] else []
      let hb := heartbeat_check smp.t (status_of trk1) fs.last_heartbeat
      Except.ok (⟨trk1, hb.1⟩, incs, trans_writes ++ hb.2)

/-- Modelled from the spec: the sampling loop with the Presence Publisher
alongside it. -/
def full_run (cfg : Config) (fs : FullState) :
    List Sample → Except String (FullState × List Increment × List PresenceWrite)
  | [] => Except.ok (fs, [], [])
  | smp :: rest =>
      match full_step cfg fs smp with
      | Except.error e => Except.error e
      | Except.ok (fs1, incs1, pw1) =>
          match full_run cfg fs1 rest with
          | Except.error e => Except.error e
          | Except.ok (fs2, incs2, pw2) => Except.ok (fs2, incs1 ++ incs2, pw1 ++ pw2)

/-- Modelled from the spec: startup takes the first sample, starts the open
Active segment (tracker.py lines 62-63) and publishes Online once (spec
section 4.3, trigger "Once at startup"). -/
def start_full (first_app : String) (t0 : ℚ) : FullState × List PresenceWrite :=
  (⟨init_state first_app t0, t0⟩, [⟨"Online", t0, none⟩])

/-- Modelled from the spec: shutdown performs the final flush of the open
segment (tracker.py stop, lines 132-138) and writes a final Offline status
with the supplied reason, exactly once (spec section 4.3, trigger "On
shutdown"). -/
def stop_full (cfg : Config) (fs : FullState) (now : ℚ) (reason : String) :
    Except String (Option Increment × List PresenceWrite) :=
  match stop cfg fs.trk now with
  | Except.error e => Except.error e
  | Except.ok inc => Except.ok (inc, [⟨"Offline", now, some reason⟩])

/-- Modelled from the spec: a whole tracker session — startup publish, the
sampling loop over the given samples, then the shutdown flush and the final
Offline publish. -/
def full_session (cfg : Config) (first_app : String) (t0 : ℚ)
    (trace : List Sample) (t_end : ℚ) (reason : String) :
    Except String (List Increment × List PresenceWrite) :=
  match start_full first_app t0 with
  | (fs0, pw0) =>
      match full_run cfg fs0 trace with
      | Except.error e => Except.error e
      | Except.ok (fs1, incs, pw1) =>
          match stop_full cfg fs1 t_end reason with
          | Except.error e => Except.error e
          | Except.ok (inc2, pw2) =>
              Except.ok (incs ++ inc2.toList, pw0 ++ pw1 ++ pw2)

/-- Number of heartbeat writes emitted over `n` 1-second ticks when the gap
between the first tick and the last heartbeat is `d` seconds: a write fires
whenever the gap reaches HEARTBEAT_SECONDS and resets the clock to the tick
instant (so the next tick sees a gap of 1 s). -/
def hb_count : ℕ → ℕ → ℕ
  | 0, _ => 0
  | Nat.succ n, d => if 30 ≤ d then hb_count n 1 + 1 else hb_count n (d + 1)

end Presence

namespace Tracking

/-- A fixed date function for concrete runs (the tracker was started and
stopped within one calendar day). -/
def demo_date : ℚ → String := fun _ => "2026-10-12"

/-- A concrete configuration with a reachable Duration Store. -/
def cfg_ok : Config := ⟨Conn.ok, "alice", demo_date⟩

/-- A concrete configuration whose store client raises at write time. -/
def cfg_fail : Config := ⟨Conn.failing, "alice", demo_date⟩

/-- A concrete configuration whose store client was None from startup. -/
def cfg_off : Config := ⟨Conn.disconnected, "alice", demo_date⟩

end Tracking

section Lemmas

open Tracking Dashboard Presence

theorem clear_pending_eq_self {s : TrackerState} (h1 : s.potential_next_app = "")
    (h2 : s.switch_pending_time = none) : clear_pending s = s := by
  cases s
  simp_all [clear_pending]

theorem update_database_suppressed (conn : Conn) (u dt a : String) (d : ℚ)
    (h : d < 1 ∨ a = "" ∨ a = "Unknown") :
    update_database conn u dt a d = Except.ok none := by
  unfold update_database
  rw [if_pos h]

theorem update_database_ok (u dt a : String) (d : ℚ)
    (h : ¬(d < 1 ∨ a = "" ∨ a = "Unknown")) :
    update_database Conn.ok u dt a d =
      Except.ok (some ⟨u ++ "_" ++ dt,
        if a = "idle" then "total_idle_seconds" else "applications." ++ safe_app_name a,
        d, u, dt⟩) := by
  unfold update_database
  rw [if_neg h]

theorem update_database_disconnected (u dt a : String) (d : ℚ) :
    update_database Conn.disconnected u dt a d = Except.ok none := by
  unfold update_database
  split
  · rfl
  · rfl

theorem update_database_failing (u dt a : String) (d : ℚ)
    (h : ¬(d < 1 ∨ a = "" ∨ a = "Unknown")) :
    update_database Conn.failing u dt a d =
      Except.error "ServerSelectionTimeoutError" := by
  unfold update_database
  rw [if_neg h]

theorem step_idle_steady (cfg : Config) (s : TrackerState) (smp : Sample)
    (h1 : s.idle = true) (h2 : smp.idle_seconds > IDLE_THRESHOLD_SECONDS) :
    step cfg s smp = Except.ok (s, []) := by
  unfold step
  rw [if_pos h2, if_pos h1]

theorem step_idle_enter (cfg : Config) (s : TrackerState) (smp : Sample)
    (h1 : s.idle = false) (h2 : smp.idle_seconds > IDLE_THRESHOLD_SECONDS) :
    step cfg s smp =
      match update_database cfg.conn cfg.user_id (cfg.date_of smp.t)
          s.current_app (smp.t - s.start_time) with
      | Except.error e => Except.error e
      | Except.ok inc =>
          Except.ok (clear_pending { s with idle := true, start_time := smp.t },
            inc.toList) := by
  unfold step
  rw [if_pos h2, if_neg (by simp [h1])]

theorem step_idle_exit (cfg : Config) (s : TrackerState) (smp : Sample)
    (h1 : s.idle = true) (h2 : ¬ smp.idle_seconds > IDLE_THRESHOLD_SECONDS) :
    step cfg s smp =
      match update_database cfg.conn cfg.user_id (cfg.date_of smp.t) "idle"
          (smp.t - s.start_time) with
      | Except.error e => Except.error e
      | Except.ok inc =>
          Except.ok (clear_pending
            { s with idle := false, current_app := smp.active_app,
                     start_time := smp.t }, inc.toList) := by
  unfold step
  rw [if_neg h2, if_pos h1]
  cases hud : update_database cfg.conn cfg.user_id (cfg.date_of smp.t) "idle"
      (smp.t - s.start_time) with
  | error e => simp [hud]
  | ok inc => simp [hud]

theorem step_active_same (cfg : Config) (s : TrackerState) (smp : Sample)
    (h1 : s.idle = false) (h2 : ¬ smp.idle_seconds > IDLE_THRESHOLD_SECONDS)
    (h3 : smp.active_app = s.current_app) :
    step cfg s smp = Except.ok (clear_pending s, []) := by
  unfold step
  rw [if_neg h2, if_neg (by simp [h1])]
  simp [h3]

theorem step_switch_new (cfg : Config) (s : TrackerState) (smp : Sample)
    (h1 : s.idle = false) (h2 : ¬ smp.idle_seconds > IDLE_THRESHOLD_SECONDS)
    (h3 : smp.active_app ≠ s.current_app)
    (h4 : s.potential_next_app ≠ smp.active_app) :
    step cfg s smp =
      Except.ok ({ s with potential_next_app := smp.active_app,
                          switch_pending_time := some smp.t }, []) := by
  unfold step handle_potential_switch
  rw [if_neg h2, if_neg (by simp [h1])]
  simp [h3, h4]

theorem step_switch_wait (cfg : Config) (s : TrackerState) (smp : Sample) (pt : ℚ)
    (h1 : s.idle = false) (h2 : ¬ smp.idle_seconds > IDLE_THRESHOLD_SECONDS)
    (h3 : smp.active_app ≠ s.current_app)
    (h4 : s.potential_next_app = smp.active_app)
    (h5 : s.switch_pending_time = some pt)
    (h6 : ¬ smp.t - pt > SWITCH_CONFIRM_SECONDS) :
    step cfg s smp = Except.ok (s, []) := by
  unfold step handle_potential_switch
  rw [if_neg h2, if_neg (by simp [h1])]
  simp [h3, h4, h5, h6]

theorem step_switch_commit (cfg : Config) (s : TrackerState) (smp : Sample) (pt : ℚ)
    (h1 : s.idle = false) (h2 : ¬ smp.idle_seconds > IDLE_THRESHOLD_SECONDS)
    (h3 : smp.active_app ≠ s.current_app)
    (h4 : s.potential_next_app = smp.active_app)
    (h5 : s.switch_pending_time = some pt)
    (h6 : smp.t - pt > SWITCH_CONFIRM_SECONDS) :
    step cfg s smp =
      match update_database cfg.conn cfg.user_id (cfg.date_of smp.t)
          s.current_app (pt - s.start_time) with
      | Except.error e => Except.error e
      | Except.ok inc =>
          Except.ok (clear_pending
            { s with current_app := s.potential_next_app,
                     start_time := pt }, inc.toList) := by
  unfold step handle_potential_switch
  rw [if_neg h2, if_neg (by simp [h1])]
  cases hud : update_database cfg.conn cfg.user_id (cfg.date_of smp.t)
      s.current_app (pt - s.start_time) with
  | error e => simp [h3, h4, h5, h6, hud]
  | ok inc => simp [h3, h4, h5, h6, hud]

theorem run_trace_cons_ok {cfg : Config} {s : TrackerState} {smp : Sample}
    {rest : List Sample} {s1 : TrackerState} {e1 : List Increment}
    {s2 : TrackerState} {e2 : List Increment}
    (h1 : step cfg s smp = Except.ok (s1, e1))
    (h2 : run_trace cfg s1 rest = Except.ok (s2, e2)) :
    run_trace cfg s (smp :: rest) = Except.ok (s2, e1 ++ e2) := by
  simp only [run_trace, h1, h2]

theorem run_trace_cons_err {cfg : Config} {s : TrackerState} {smp : Sample}
    {rest : List Sample} {e : String}
    (h1 : step cfg s smp = Except.error e) :
    run_trace cfg s (smp :: rest) = Except.error e := by
  simp only [run_trace, h1]

theorem run_trace_steady_active (cfg : Config) (s : TrackerState) (tr : List Sample)
    (h1 : s.idle = false) (h2 : s.potential_next_app = "")
    (h3 : s.switch_pending_time = none)
    (h4 : ∀ smp ∈ tr, smp.active_app = s.current_app ∧
      ¬ smp.idle_seconds > IDLE_THRESHOLD_SECONDS) :
    run_trace cfg s tr = Except.ok (s, []) := by
  induction tr with
  | nil => rfl
  | cons smp rest ih =>
      have h := h4 smp (List.mem_cons_self smp rest)
      have hstep : step cfg s smp = Except.ok (s, []) := by
        rw [step_active_same cfg s smp h1 h.2 h.1, clear_pending_eq_self h2 h3]
      have hrest := ih (fun x hx => h4 x (List.mem_cons_of_mem smp hx))
      simpa using run_trace_cons_ok hstep hrest

theorem run_trace_steady_idle (cfg : Config) (s : TrackerState) (tr : List Sample)
    (h1 : s.idle = true)
    (h4 : ∀ smp ∈ tr, smp.idle_seconds > IDLE_THRESHOLD_SECONDS) :
    run_trace cfg s tr = Except.ok (s, []) := by
  induction tr with
  | nil => rfl
  | cons smp rest ih =>
      have hstep := step_idle_steady cfg s smp h1 (h4 smp (List.mem_cons_self smp rest))
      have hrest := ih (fun x hx => h4 x (List.mem_cons_of_mem smp hx))
      simpa using run_trace_cons_ok hstep hrest

end Lemmas

section Claims1

open Tracking Dashboard Presence

theorem norm_utc_val (d : PyDateTime) :
    (if d.aware then d else replace_tz_utc d).utc_val = d.utc_val := by
  cases d with
  | mk v a => cases a <;> rfl

/-- C4: a flush with duration below 1 second, or with an empty or "Unknown"
activity name, is a no-op producing zero increments (under any connection
state); every other flush against a reachable store issues exactly one
increment, keyed by user_id and the date taken at flush time, against
total_idle_seconds for the Idle kind (name "idle") and against
applications[escaped name] otherwise. -/
theorem c4_suppression_rule : ∀ (conn : Conn) (u dt name : String) (d : ℚ),
    ((d < 1 ∨ name = "" ∨ name = "Unknown") →
      update_database conn u dt name d = Except.ok none) ∧
    (¬(d < 1 ∨ name = "" ∨ name = "Unknown") →
      update_database Conn.ok u dt name d =
        Except.ok (some ⟨u ++ "_" ++ dt,
          if name = "idle" then "total_idle_seconds"
          else "applications." ++ safe_app_name name, d, u, dt⟩)) := by
  intro conn u dt name d
  exact ⟨fun h => update_database_suppressed conn u dt name d h,
         fun h => update_database_ok u dt name d h⟩

/-- C4 witness: a flush of "Unknown" for 5 s and a flush of chrome.exe for
0.5 s both produce zero increments. -/
theorem c4_suppression_rule_witness :
    update_database Conn.ok "alice" "2026-10-12" "Unknown" 5 = Except.ok none ∧
    update_database Conn.ok "alice" "2026-10-12" "chrome.exe" (1/2) =
      Except.ok none :=
  ⟨(c4_suppression_rule Conn.ok "alice" "2026-10-12" "Unknown" 5).1 (by simp),
   (c4_suppression_rule Conn.ok "alice" "2026-10-12" "chrome.exe" (1/2)).1
     (by norm_num)⟩

/-- C7 counterexample: the escaping is not reversible on every name — a name
that itself contains an underscore, such as "my_app", is escaped to "my_app"
and unescaped to "my.app", which differs from the original. -/
theorem c7_roundtrip_counterexample :
    unescape_app_name (safe_app_name "my_app") = "my.app" ∧
      "my.app" ≠ "my_app" := by
  exact ⟨rfl, by decide⟩

theorem roundtrip_char_list : ∀ (l : List Char), (∀ c ∈ l, c ≠ '_') →
    (l.map (fun c => if c = '.' then '_' else c)).map
      (fun c => if c = '_' then '.' else c) = l := by
  intro l
  induction l with
  | nil => intro _; rfl
  | cons c cs ih =>
      intro h
      simp only [List.map_cons, List.cons.injEq]
      refine ⟨?_, ih (fun x hx => h x (List.mem_cons_of_mem c hx))⟩
      have hc : c ≠ '_' := h c (List.mem_cons_self c cs)
      by_cases hdot : c = '.'
      · simp [hdot]
      · simp [hdot, hc]

/-- C7 amended: the round-trip identity holds exactly for application names
containing no underscore — for those, unescaping the escaped key yields the
original name. -/
theorem c7_escape_roundtrip_amended (s : String) (h : ∀ c ∈ s.data, c ≠ '_') :
    unescape_app_name (safe_app_name s) = s := by
  cases s with
  | mk data =>
      unfold safe_app_name unescape_app_name
      exact congrArg String.mk (roundtrip_char_list data h)

/-- C7 witness: "chrome.exe" (no underscore) round-trips. -/
theorem c7_escape_roundtrip_amended_witness :
    unescape_app_name (safe_app_name "chrome.exe") = "chrome.exe" :=
  c7_escape_roundtrip_amended "chrome.exe" (by decide)

/-- C9 counterexample: a tick at t = 1.5 s flushes an increment whose amount
is the raw rational 3/2, not a whole number of seconds — the tracker applies
no rounding to the amounts it adds. -/
theorem c9_fractional_amount_counterexample :
    run_trace cfg_ok ⟨"app.exe", 0, false, "", none⟩ [⟨3/2, "x.exe", 100⟩] =
      Except.ok (⟨"app.exe", 3/2, true, "", none⟩,
        [⟨"alice_2026-10-12", "applications.app_exe", 3/2, "alice",
          "2026-10-12"⟩]) ∧
    ¬ ∃ z : ℤ, ((3:ℚ)/2) = (z : ℚ) := by
  constructor
  · have hstep : step cfg_ok ⟨"app.exe", 0, false, "", none⟩ ⟨3/2, "x.exe", 100⟩ =
        Except.ok (⟨"app.exe", 3/2, true, "", none⟩,
          [⟨"alice_2026-10-12", "applications.app_exe", 3/2, "alice",
            "2026-10-12"⟩]) := by
      rw [step_idle_enter cfg_ok ⟨"app.exe", 0, false, "", none⟩ ⟨3/2, "x.exe", 100⟩
        rfl (by norm_num [IDLE_THRESHOLD_SECONDS])]
      rw [show ((3:ℚ)/2 - 0) = 3/2 by norm_num]
      rw [show cfg_ok.conn = Conn.ok from rfl, show cfg_ok.user_id = "alice" from rfl,
        show cfg_ok.date_of (3/2) = "2026-10-12" from rfl]
      rw [update_database_ok "alice" "2026-10-12" "app.exe" (3/2)
        (by push_neg; refine ⟨by norm_num, by decide, by decide⟩)]
      rfl
    simpa using run_trace_cons_ok hstep
      (rfl : run_trace cfg_ok ⟨"app.exe", 3/2, true, "", none⟩ [] =
        Except.ok (⟨"app.exe", 3/2, true, "", none⟩, []))
  · rintro ⟨z, hz⟩
    have h2 : (2:ℚ) * z = 3 := by rw [← hz]; ring
    have h3 : (2:ℤ) * z = 3 := by exact_mod_cast h2
    omega

end Claims1

section Claims2

open Tracking Dashboard Presence

/-- C9 amended: the amount a flush adds to a Duration Store counter is the
raw measured duration, passed through unrounded (rounding to seconds happens
only in display formatting, not in the persisted increments). -/
theorem c9_amount_unrounded (conn : Conn) (u dt a : String) (d : ℚ)
    (inc : Increment)
    (h : update_database conn u dt a d = Except.ok (some inc)) :
    inc.amount = d := by
  unfold update_database at h
  by_cases hs : d < 1 ∨ a = "" ∨ a = "Unknown"
  · rw [if_pos hs] at h
    cases h
  · rw [if_neg hs] at h
    cases conn with
    | disconnected => cases h
    | failing => cases h
    | ok =>
        simp only [Except.ok.injEq, Option.some.injEq] at h
        rw [← h]

/-- C9 amended witness: a 2-second flush of a.exe carries amount exactly 2. -/
theorem c9_amount_unrounded_witness :
    Increment.amount ⟨"u_d", "applications.a_exe", 2, "u", "d"⟩ = 2 :=
  c9_amount_unrounded Conn.ok "u" "d" "a.exe" 2
    ⟨"u_d", "applications.a_exe", 2, "u", "d"⟩
    (by rw [update_database_ok "u" "d" "a.exe" 2
          (by push_neg; refine ⟨by norm_num, by decide, by decide⟩)]
        rfl)

/-- C10: the flush interface distinguishes Idle from Active solely by the
literal activity name "idle" — every flush named "idle" increments
total_idle_seconds, and a tracker whose current (Active) foreground app is
literally named "idle" has its active segment flushed into
total_idle_seconds, indistinguishable from idle time. -/
theorem c10_idle_name_collision :
    (∀ (conn : Conn) (u dt : String) (d : ℚ) (inc : Increment),
      update_database conn u dt "idle" d = Except.ok (some inc) →
        inc.update_field = "total_idle_seconds") ∧
    (∀ (cfg : Config) (st : ℚ) (smp : Sample), cfg.conn = Conn.ok →
      smp.idle_seconds > IDLE_THRESHOLD_SECONDS → 1 ≤ smp.t - st →
      step cfg ⟨"idle", st, false, "", none⟩ smp =
        Except.ok (⟨"idle", smp.t, true, "", none⟩,
          [⟨cfg.user_id ++ "_" ++ cfg.date_of smp.t, "total_idle_seconds",
            smp.t - st, cfg.user_id, cfg.date_of smp.t⟩])) := by
  constructor
  · intro conn u dt d inc h
    unfold update_database at h
    by_cases hs : d < 1 ∨ ("idle" : String) = "" ∨ ("idle" : String) = "Unknown"
    · rw [if_pos hs] at h
      cases h
    · rw [if_neg hs] at h
      cases conn with
      | disconnected => cases h
      | failing => cases h
      | ok =>
          simp only [Except.ok.injEq, Option.some.injEq] at h
          rw [← h]
          simp
  · intro cfg st smp hconn hidle hdur
    rw [step_idle_enter cfg ⟨"idle", st, false, "", none⟩ smp rfl hidle]
    rw [hconn]
    rw [update_database_ok cfg.user_id (cfg.date_of smp.t) "idle" (smp.t - st)
      (by push_neg; refine ⟨by linarith, by decide, by decide⟩)]
    rfl

/-- C10 witness: with a reachable store, an Active segment in a process named
"idle" that ends by idling out is credited to total_idle_seconds. -/
theorem c10_idle_name_collision_witness :
    step cfg_ok ⟨"idle", 0, false, "", none⟩ ⟨61, "x.exe", 100⟩ =
      Except.ok (⟨"idle", 61, true, "", none⟩,
        [⟨cfg_ok.user_id ++ "_" ++ cfg_ok.date_of 61, "total_idle_seconds",
          61 - 0, cfg_ok.user_id, cfg_ok.date_of 61⟩]) :=
  c10_idle_name_collision.2 cfg_ok 0 ⟨61, "x.exe", 100⟩ rfl
    (by norm_num [IDLE_THRESHOLD_SECONDS]) (by norm_num)

/-- C3: the staleness monitor is a pure, per-record derivation over the
snapshot (it issues no store write); a stored Online record whose last_seen
(normalized to UTC when naive) lies more than STALE_THRESHOLD before now is
displayed Offline with reason "Connection timeout"; every other record's
stored status and reason are displayed verbatim. -/
theorem c3_staleness_monitor :
    (∀ (now : ℚ) (docs : List StoredRecord),
      update_user_list now docs = docs.map (derive_row now)) ∧
    (∀ (now : ℚ) (doc : StoredRecord) (d : PyDateTime),
      doc.status = some "Online" → doc.last_seen = some d →
      now - d.utc_val > STALE_THRESHOLD →
      (derive_row now doc).status = "Offline" ∧
        (derive_row now doc).reason = "Connection timeout") ∧
    (∀ (now : ℚ) (doc : StoredRecord) (st : String), doc.status = some st →
      ¬(st = "Online" ∧ ∃ d, doc.last_seen = some d ∧
          now - d.utc_val > STALE_THRESHOLD) →
      (derive_row now doc).status = st ∧
        (derive_row now doc).reason = doc.offline_reason.getD "") := by
  refine ⟨fun now docs => rfl, ?_, ?_⟩
  · intro now doc d hst hls hstale
    simp [derive_row, hst, hls, norm_utc_val, hstale]
  · intro now doc st hst hneg
    cases hls : doc.last_seen with
    | none => simp [derive_row, hst, hls]
    | some d =>
        have hcond : ¬(st = "Online" ∧ now - d.utc_val > STALE_THRESHOLD) := by
          rintro ⟨h1, h2⟩
          exact hneg ⟨h1, d, hls, h2⟩
        simp [derive_row, hst, hls, norm_utc_val, hcond]

/-- C3 witness: a stored Online record with a naive last_seen 300 s old (more
than the 120 s threshold) is displayed Offline / "Connection timeout". -/
theorem c3_staleness_monitor_witness :
    (derive_row 1000 ⟨"bob", some "Online", some "", some ⟨700, false⟩, []⟩).status
        = "Offline" ∧
      (derive_row 1000 ⟨"bob", some "Online", some "", some ⟨700, false⟩, []⟩).reason
        = "Connection timeout" :=
  c3_staleness_monitor.2.1 1000
    ⟨"bob", some "Online", some "", some ⟨700, false⟩, []⟩ ⟨700, false⟩ rfl rfl
    (by norm_num [STALE_THRESHOLD])

end Claims2

section Claims3

open Tracking Dashboard Presence

theorem run_trace_append_ok {cfg : Config} {s : TrackerState} {tr1 : List Sample}
    {s1 : TrackerState} {e1 : List Increment} {tr2 : List Sample}
    {s2 : TrackerState} {e2 : List Increment}
    (h1 : run_trace cfg s tr1 = Except.ok (s1, e1))
    (h2 : run_trace cfg s1 tr2 = Except.ok (s2, e2)) :
    run_trace cfg s (tr1 ++ tr2) = Except.ok (s2, e1 ++ e2) := by
  induction tr1 generalizing s e1 with
  | nil =>
      simp only [run_trace] at h1
      cases h1
      simpa using h2
  | cons smp rest ih =>
      cases hs : step cfg s smp with
      | error e =>
          rw [run_trace_cons_err hs] at h1
          cases h1
      | ok p =>
          obtain ⟨sa, ea⟩ := p
          cases hr : run_trace cfg sa rest with
          | error e =>
              simp only [run_trace, hs, hr] at h1
              cases h1
          | ok q =>
              obtain ⟨sb, eb⟩ := q
              simp only [run_trace, hs, hr, Except.ok.injEq, Prod.mk.injEq] at h1
              obtain ⟨hb, he⟩ := h1
              subst hb
              subst he
              have := run_trace_cons_ok hs (ih hr)
              simpa [List.append_assoc] using this

theorem const_trace_five (a : String) (base : ℚ) :
    const_trace a base 5 = [⟨base, a, 0⟩, ⟨base+1, a, 0⟩, ⟨base+1+1, a, 0⟩,
      ⟨base+1+1+1, a, 0⟩, ⟨base+1+1+1+1, a, 0⟩] := rfl

/-- C2: from a clean Active segment on A, sampling a different app B
continuously (not idle) at five 1-second ticks — so for longer than
SWITCH_CONFIRM_SECONDS — commits exactly one switch: the single flush credits
A with duration first_observed_at - start_time (t0 - st, not the confirmation
instant), the current app becomes B, and the new segment starts at
first_observed_at (t0); any further continuous-B samples commit nothing
more. -/
theorem c2_switch_commit (cfg : Config) (hconn : cfg.conn = Conn.ok)
    (A B : String) (st t0 : ℚ) (rest : List Sample)
    (hAB : A ≠ B) (hA0 : A ≠ "") (hA1 : A ≠ "Unknown") (hB0 : B ≠ "")
    (hdur : 1 ≤ t0 - st)
    (hrest : ∀ smp ∈ rest, smp.active_app = B ∧
      ¬ smp.idle_seconds > IDLE_THRESHOLD_SECONDS) :
    run_trace cfg ⟨A, st, false, "", none⟩ (const_trace B t0 5 ++ rest) =
      Except.ok (⟨B, t0, false, "", none⟩,
        [⟨cfg.user_id ++ "_" ++ cfg.date_of (t0+1+1+1+1),
          if A = "idle" then "total_idle_seconds"
          else "applications." ++ safe_app_name A,
          t0 - st, cfg.user_id, cfg.date_of (t0+1+1+1+1)⟩]) := by
  have hBA : B ≠ A := Ne.symm hAB
  have hi0 : ¬ (0:ℚ) > IDLE_THRESHOLD_SECONDS := by norm_num [IDLE_THRESHOLD_SECONDS]
  have st1 : step cfg ⟨A, st, false, "", none⟩ ⟨t0, B, 0⟩ =
      Except.ok (⟨A, st, false, B, some t0⟩, []) := by
    rw [step_switch_new cfg ⟨A, st, false, "", none⟩ ⟨t0, B, 0⟩ rfl hi0 hBA
      (Ne.symm hB0)]
  have stw : ∀ t : ℚ, ¬ t - t0 > SWITCH_CONFIRM_SECONDS →
      step cfg ⟨A, st, false, B, some t0⟩ ⟨t, B, 0⟩ =
        Except.ok (⟨A, st, false, B, some t0⟩, []) := by
    intro t ht
    exact step_switch_wait cfg ⟨A, st, false, B, some t0⟩ ⟨t, B, 0⟩ t0 rfl hi0
      hBA rfl rfl ht
  have st5 : step cfg ⟨A, st, false, B, some t0⟩ ⟨t0+1+1+1+1, B, 0⟩ =
      Except.ok (⟨B, t0, false, "", none⟩,
        [⟨cfg.user_id ++ "_" ++ cfg.date_of (t0+1+1+1+1),
          if A = "idle" then "total_idle_seconds"
          else "applications." ++ safe_app_name A,
          t0 - st, cfg.user_id, cfg.date_of (t0+1+1+1+1)⟩]) := by
    rw [step_switch_commit cfg ⟨A, st, false, B, some t0⟩ ⟨t0+1+1+1+1, B, 0⟩ t0
      rfl hi0 hBA rfl rfl
      (by rw [show t0+1+1+1+1 - t0 = (4:ℚ) by ring]
          norm_num [SWITCH_CONFIRM_SECONDS])]
    rw [hconn]
    rw [update_database_ok cfg.user_id (cfg.date_of (t0+1+1+1+1)) A (t0 - st)
      (by push_neg; exact ⟨by linarith, hA0, hA1⟩)]
    rfl
  have hrest2 : run_trace cfg ⟨B, t0, false, "", none⟩ rest =
      Except.ok (⟨B, t0, false, "", none⟩, []) :=
    run_trace_steady_active cfg ⟨B, t0, false, "", none⟩ rest rfl rfl rfl hrest
  have hw1 := stw (t0+1)
    (by rw [show t0+1 - t0 = (1:ℚ) by ring]; norm_num [SWITCH_CONFIRM_SECONDS])
  have hw2 := stw (t0+1+1)
    (by rw [show t0+1+1 - t0 = (2:ℚ) by ring]; norm_num [SWITCH_CONFIRM_SECONDS])
  have hw3 := stw (t0+1+1+1)
    (by rw [show t0+1+1+1 - t0 = (3:ℚ) by ring]; norm_num [SWITCH_CONFIRM_SECONDS])
  have hchain := run_trace_cons_ok st1 (run_trace_cons_ok hw1 (run_trace_cons_ok hw2
    (run_trace_cons_ok hw3 (run_trace_cons_ok st5 hrest2))))
  rw [const_trace_five]
  simpa using hchain

/-- C2 witness: A = code.exe, B = chrome.exe, segment start 0, B first seen at
t0 = 10; the single flush credits code.exe with 10 seconds and the new
segment starts at 10. -/
theorem c2_switch_commit_witness :
    run_trace cfg_ok ⟨"code.exe", 0, false, "", none⟩
      (const_trace "chrome.exe" 10 5 ++ []) =
      Except.ok (⟨"chrome.exe", 10, false, "", none⟩,
        [⟨cfg_ok.user_id ++ "_" ++ cfg_ok.date_of (10+1+1+1+1),
          if "code.exe" = "idle" then "total_idle_seconds"
          else "applications." ++ safe_app_name "code.exe",
          10 - 0, cfg_ok.user_id, cfg_ok.date_of (10+1+1+1+1)⟩]) :=
  c2_switch_commit cfg_ok rfl "code.exe" "chrome.exe" 0 10 []
    (by decide) (by decide) (by decide) (by decide) (by norm_num)
    (by intro smp h; cases h)

end Claims3

section Claims4

open Tracking Dashboard Presence

/-- C5: from an Active segment on A — regardless of any pending debounce state
(pn, pt arbitrary) — an idle period (idle_seconds above threshold at entry and
throughout mid) followed by an active sample of app C flushes the open Active
segment exactly once at entry (clearing the pending switch), flushes exactly
one Idle segment at exit with duration now - start_time, and starts exactly
one new Active segment whose app is the one sampled at the exit tick, adopted
immediately without the switch debounce. -/
theorem c5_idle_entry_exit (cfg : Config) (hconn : cfg.conn = Conn.ok)
    (A X C pn : String) (pt : Option ℚ) (st t1 t3 i1 i3 : ℚ) (mid : List Sample)
    (hA0 : A ≠ "") (hA1 : A ≠ "Unknown")
    (hd1 : 1 ≤ t1 - st) (hd2 : 1 ≤ t3 - t1)
    (hi1 : i1 > IDLE_THRESHOLD_SECONDS) (hi3 : ¬ i3 > IDLE_THRESHOLD_SECONDS)
    (hmid : ∀ smp ∈ mid, smp.idle_seconds > IDLE_THRESHOLD_SECONDS) :
    run_trace cfg ⟨A, st, false, pn, pt⟩ (⟨t1, X, i1⟩ :: (mid ++ [⟨t3, C, i3⟩])) =
      Except.ok (⟨C, t3, false, "", none⟩,
        [⟨cfg.user_id ++ "_" ++ cfg.date_of t1,
          if A = "idle" then "total_idle_seconds"
          else "applications." ++ safe_app_name A, t1 - st,
          cfg.user_id, cfg.date_of t1⟩,
         ⟨cfg.user_id ++ "_" ++ cfg.date_of t3, "total_idle_seconds",
          t3 - t1, cfg.user_id, cfg.date_of t3⟩]) := by
  have st1 : step cfg ⟨A, st, false, pn, pt⟩ ⟨t1, X, i1⟩ =
      Except.ok (⟨A, t1, true, "", none⟩,
        [⟨cfg.user_id ++ "_" ++ cfg.date_of t1,
          if A = "idle" then "total_idle_seconds"
          else "applications." ++ safe_app_name A, t1 - st,
          cfg.user_id, cfg.date_of t1⟩]) := by
    rw [step_idle_enter cfg ⟨A, st, false, pn, pt⟩ ⟨t1, X, i1⟩ rfl hi1]
    rw [hconn]
    rw [update_database_ok cfg.user_id (cfg.date_of t1) A (t1 - st)
      (by push_neg; exact ⟨by linarith, hA0, hA1⟩)]
    rfl
  have stm : run_trace cfg ⟨A, t1, true, "", none⟩ mid =
      Except.ok (⟨A, t1, true, "", none⟩, []) :=
    run_trace_steady_idle cfg ⟨A, t1, true, "", none⟩ mid rfl hmid
  have st3 : step cfg ⟨A, t1, true, "", none⟩ ⟨t3, C, i3⟩ =
      Except.ok (⟨C, t3, false, "", none⟩,
        [⟨cfg.user_id ++ "_" ++ cfg.date_of t3, "total_idle_seconds",
          t3 - t1, cfg.user_id, cfg.date_of t3⟩]) := by
    rw [step_idle_exit cfg ⟨A, t1, true, "", none⟩ ⟨t3, C, i3⟩ rfl hi3]
    rw [hconn]
    rw [update_database_ok cfg.user_id (cfg.date_of t3) "idle" (t3 - t1)
      (by push_neg; refine ⟨by linarith, by decide, by decide⟩)]
    rfl
  have hlast := run_trace_cons_ok st3 (rfl :
    run_trace cfg ⟨C, t3, false, "", none⟩ [] = Except.ok (⟨C, t3, false, "", none⟩, []))
  have happ := run_trace_append_ok stm hlast
  have hchain := run_trace_cons_ok st1 happ
  simpa using hchain

/-- C5 witness: idle entry at 70 s (after 70 s on code.exe, with a stale
pending switch to b.exe), one more idle tick, then exit at 140 s into
chrome.exe. -/
theorem c5_idle_entry_exit_witness :
    run_trace cfg_ok ⟨"code.exe", 0, false, "b.exe", some 65⟩
      (⟨70, "x.exe", 100⟩ :: ([⟨71, "x.exe", 100⟩] ++ [⟨140, "chrome.exe", 0⟩])) =
      Except.ok (⟨"chrome.exe", 140, false, "", none⟩,
        [⟨cfg_ok.user_id ++ "_" ++ cfg_ok.date_of 70,
          if "code.exe" = "idle" then "total_idle_seconds"
          else "applications." ++ safe_app_name "code.exe", 70 - 0,
          cfg_ok.user_id, cfg_ok.date_of 70⟩,
         ⟨cfg_ok.user_id ++ "_" ++ cfg_ok.date_of 140, "total_idle_seconds",
          140 - 70, cfg_ok.user_id, cfg_ok.date_of 140⟩]) :=
  c5_idle_entry_exit cfg_ok rfl "code.exe" "x.exe" "chrome.exe" "b.exe" (some 65)
    0 70 140 100 0 [⟨71, "x.exe", 100⟩] (by decide) (by decide) (by norm_num)
    (by norm_num) (by norm_num [IDLE_THRESHOLD_SECONDS])
    (by norm_num [IDLE_THRESHOLD_SECONDS])
    (by intro smp h
        fin_cases h
        norm_num [IDLE_THRESHOLD_SECONDS])

/-- C6: a flickering sample sequence [A, B, A, B, A] at 1-second ticks (B
never persisting for SWITCH_CONFIRM_SECONDS) commits no switch and flushes
nothing — the state is exactly the original open A segment, so the whole span
stays credited to A; and a sample equal to the current app always clears any
pending switch. -/
theorem c6_flicker_suppressed :
    (∀ (cfg : Config) (A B : String) (st t0 : ℚ), A ≠ B → B ≠ "" →
      run_trace cfg ⟨A, st, false, "", none⟩
        [⟨t0, A, 0⟩, ⟨t0+1, B, 0⟩, ⟨t0+2, A, 0⟩, ⟨t0+3, B, 0⟩, ⟨t0+4, A, 0⟩] =
        Except.ok (⟨A, st, false, "", none⟩, [])) ∧
    (∀ (cfg : Config) (s : TrackerState) (smp : Sample), s.idle = false →
      ¬ smp.idle_seconds > IDLE_THRESHOLD_SECONDS →
      smp.active_app = s.current_app →
      step cfg s smp = Except.ok (clear_pending s, [])) := by
  constructor
  · intro cfg A B st t0 hAB hB0
    have hBA : B ≠ A := Ne.symm hAB
    have hi0 : ¬ (0:ℚ) > IDLE_THRESHOLD_SECONDS := by
      norm_num [IDLE_THRESHOLD_SECONDS]
    have hsame : ∀ t : ℚ, step cfg ⟨A, st, false, "", none⟩ ⟨t, A, 0⟩ =
        Except.ok (⟨A, st, false, "", none⟩, []) := by
      intro t
      rw [step_active_same cfg ⟨A, st, false, "", none⟩ ⟨t, A, 0⟩ rfl hi0 rfl]
      rfl
    have hsame2 : ∀ (t pt : ℚ), step cfg ⟨A, st, false, B, some pt⟩ ⟨t, A, 0⟩ =
        Except.ok (⟨A, st, false, "", none⟩, []) := by
      intro t pt
      rw [step_active_same cfg ⟨A, st, false, B, some pt⟩ ⟨t, A, 0⟩ rfl hi0 rfl]
      rfl
    have hnew : ∀ (t : ℚ), step cfg ⟨A, st, false, "", none⟩ ⟨t, B, 0⟩ =
        Except.ok (⟨A, st, false, B, some t⟩, []) := by
      intro t
      rw [step_switch_new cfg ⟨A, st, false, "", none⟩ ⟨t, B, 0⟩ rfl hi0 hBA
        (Ne.symm hB0)]
    have hchain := run_trace_cons_ok (hsame t0) (run_trace_cons_ok (hnew (t0+1))
      (run_trace_cons_ok (hsame2 (t0+2) (t0+1)) (run_trace_cons_ok (hnew (t0+3))
        (run_trace_cons_ok (hsame2 (t0+4) (t0+3)) (rfl :
          run_trace cfg ⟨A, st, false, "", none⟩ [] =
            Except.ok (⟨A, st, false, "", none⟩, []))))))
    simpa using hchain
  · intro cfg s smp h1 h2 h3
    exact step_active_same cfg s smp h1 h2 h3

/-- C6 witness: the concrete flicker [code.exe, b.exe, code.exe, b.exe,
code.exe] starting at t = 10 leaves the tracker exactly in its original open
code.exe segment with no flushes. -/
theorem c6_flicker_suppressed_witness :
    run_trace cfg_ok ⟨"code.exe", 0, false, "", none⟩
      [⟨10, "code.exe", 0⟩, ⟨10+1, "b.exe", 0⟩, ⟨10+2, "code.exe", 0⟩,
       ⟨10+3, "b.exe", 0⟩, ⟨10+4, "code.exe", 0⟩] =
      Except.ok (⟨"code.exe", 0, false, "", none⟩, []) :=
  c6_flicker_suppressed.1 cfg_ok "code.exe" "b.exe" 0 10 (by decide) (by decide)

end Claims4

section Claims5

open Tracking Dashboard Presence

/-- C8 counterexample: with a client whose update_one raises (store
unreachable at write time), the idle-entry flush at t = 70 raises out of
update_database — there is no try/except in the loop — and the run aborts
with the exception before the second sample is ever processed, although no
stop was requested. -/
theorem c8_write_failure_kills_loop :
    run_trace cfg_fail ⟨"app.exe", 0, false, "", none⟩
      [⟨70, "app.exe", 100⟩, ⟨71, "app.exe", 100⟩] =
      Except.error "ServerSelectionTimeoutError" := by
  have hstep : step cfg_fail ⟨"app.exe", 0, false, "", none⟩ ⟨70, "app.exe", 100⟩ =
      Except.error "ServerSelectionTimeoutError" := by
    rw [step_idle_enter cfg_fail ⟨"app.exe", 0, false, "", none⟩ ⟨70, "app.exe", 100⟩
      rfl (by norm_num [IDLE_THRESHOLD_SECONDS])]
    rw [show cfg_fail.conn = Conn.failing from rfl]
    rw [update_database_failing cfg_fail.user_id (cfg_fail.date_of 70) "app.exe"
      (70 - 0) (by push_neg; refine ⟨by norm_num, by decide, by decide⟩)]
  exact run_trace_cons_err hstep

theorem step_disconnected_ok (cfg : Config) (hconn : cfg.conn = Conn.disconnected)
    (s : TrackerState) (smp : Sample)
    (hinv : s.switch_pending_time = none → s.potential_next_app = "")
    (happ : smp.active_app ≠ "") :
    ∃ s1 evs, step cfg s smp = Except.ok (s1, evs) ∧
      (s1.switch_pending_time = none → s1.potential_next_app = "") := by
  by_cases hi : smp.idle_seconds > IDLE_THRESHOLD_SECONDS
  · cases hidle : s.idle with
    | true => exact ⟨s, [], step_idle_steady cfg s smp hidle hi, hinv⟩
    | false =>
        refine ⟨clear_pending { s with idle := true, start_time := smp.t }, [],
          ?_, fun _ => rfl⟩
        rw [step_idle_enter cfg s smp hidle hi, hconn,
          update_database_disconnected]
        rfl
  · cases hidle : s.idle with
    | true =>
        refine ⟨clear_pending
          { s with idle := false, current_app := smp.active_app,
                   start_time := smp.t }, [], ?_, fun _ => rfl⟩
        rw [step_idle_exit cfg s smp hidle hi, hconn, update_database_disconnected]
        rfl
    | false =>
        by_cases hsame : smp.active_app = s.current_app
        · exact ⟨clear_pending s, [],
            step_active_same cfg s smp hidle hi hsame, fun _ => rfl⟩
        · by_cases hpot : s.potential_next_app = smp.active_app
          · cases hsw : s.switch_pending_time with
            | none =>
                exact absurd (hpot.symm.trans (hinv hsw)) happ
            | some pt =>
                by_cases hcommit : smp.t - pt > SWITCH_CONFIRM_SECONDS
                · refine ⟨clear_pending
                    { s with current_app := s.potential_next_app,
                             start_time := pt }, [], ?_, fun _ => rfl⟩
                  rw [step_switch_commit cfg s smp pt hidle hi hsame hpot hsw hcommit,
                    hconn, update_database_disconnected]
                  rfl
                · refine ⟨s, [],
                    step_switch_wait cfg s smp pt hidle hi hsame hpot hsw hcommit, ?_⟩
                  intro h
                  rw [h] at hsw
                  cases hsw
          · refine ⟨{ s with potential_next_app := smp.active_app,
                             switch_pending_time := some smp.t }, [],
              step_switch_new cfg s smp hidle hi hsame hpot, ?_⟩
            intro h
            cases h
  
/-- C8 amended: what the loop survives is a store client that was already
None at startup (the startup ConnectionFailure branch): every flush is then
skipped with a log line and the run processes its whole sample list, ending
only when the stop request ends the trace.  A write that fails at runtime,
by contrast, raises out of the flush and terminates the loop (see the
counterexample).  The pending-switch invariant and the non-empty sample names
exclude the unreachable TypeError corner of handle_potential_switch. -/
theorem c8_disconnected_loop_survives (cfg : Config) (s : TrackerState)
    (tr : List Sample) (hconn : cfg.conn = Conn.disconnected)
    (hinv : s.switch_pending_time = none → s.potential_next_app = "")
    (happ : ∀ smp ∈ tr, smp.active_app ≠ "") :
    ∃ out, run_trace cfg s tr = Except.ok out := by
  induction tr generalizing s with
  | nil => exact ⟨(s, []), rfl⟩
  | cons smp rest ih =>
      obtain ⟨s1, evs, hstep, hinv1⟩ := step_disconnected_ok cfg hconn s smp hinv
        (happ smp (List.mem_cons_self smp rest))
      obtain ⟨⟨s2, e2⟩, hrun⟩ := ih s1 hinv1
        (fun x hx => happ x (List.mem_cons_of_mem smp hx))
      exact ⟨(s2, evs ++ e2), run_trace_cons_ok hstep hrun⟩

/-- C8 amended witness: with the startup-disconnected client, a run over two
samples (one of them crossing the idle threshold, so a flush is attempted and
skipped) completes normally. -/
theorem c8_disconnected_loop_survives_witness :
    ∃ out, run_trace cfg_off ⟨"a.exe", 0, false, "", none⟩
      [⟨70, "a.exe", 100⟩, ⟨100, "b.exe", 0⟩] = Except.ok out :=
  c8_disconnected_loop_survives cfg_off ⟨"a.exe", 0, false, "", none⟩
    [⟨70, "a.exe", 100⟩, ⟨100, "b.exe", 0⟩] rfl (fun _ => rfl)
    (by intro smp h
        fin_cases h
        · decide
        · decide)

end Claims5

section Claims6

open Tracking Dashboard Presence

theorem const_trace_succ (a : String) (base : ℚ) (n : ℕ) :
    const_trace a base (n + 1) = ⟨base, a, 0⟩ :: const_trace a (base + 1) n := rfl

theorem hb_count_succ (n d : ℕ) :
    hb_count (n + 1) d = if 30 ≤ d then hb_count n 1 + 1 else hb_count n (d + 1) :=
  rfl

theorem stop_active (cfg : Config) (s : TrackerState) (now : ℚ)
    (h : s.idle = false) :
    stop cfg s now = update_database cfg.conn cfg.user_id (cfg.date_of now)
      s.current_app (now - s.start_time) := by
  unfold stop
  rw [if_neg (by simp [h])]

theorem full_run_cons_ok {cfg : Config} {fs : FullState} {smp : Sample}
    {rest : List Sample} {fs1 : FullState} {i1 : List Increment}
    {w1 : List PresenceWrite} {fs2 : FullState} {i2 : List Increment}
    {w2 : List PresenceWrite}
    (h1 : full_step cfg fs smp = Except.ok (fs1, i1, w1))
    (h2 : full_run cfg fs1 rest = Except.ok (fs2, i2, w2)) :
    full_run cfg fs (smp :: rest) = Except.ok (fs2, i1 ++ i2, w1 ++ w2) := by
  simp only [full_run, h1, h2]

theorem full_step_steady (cfg : Config) (s : TrackerState) (hb : ℚ) (smp : Sample)
    (h1 : s.idle = false) (h2 : s.potential_next_app = "")
    (h3 : s.switch_pending_time = none) (h4 : smp.active_app = s.current_app)
    (h5 : ¬ smp.idle_seconds > IDLE_THRESHOLD_SECONDS) :
    full_step cfg ⟨s, hb⟩ smp =
      Except.ok (⟨s, (heartbeat_check smp.t "Online" hb).1⟩, [],
        (heartbeat_check smp.t "Online" hb).2) := by
  have hstep : step cfg s smp = Except.ok (s, []) := by
    rw [step_active_same cfg s smp h1 h5 h4, clear_pending_eq_self h2 h3]
  unfold full_step
  rw [hstep]
  simp [status_of, h1]

theorem full_run_const_active (cfg : Config) (a : String) (s : TrackerState)
    (h1 : s.idle = false) (h2 : s.potential_next_app = "")
    (h3 : s.switch_pending_time = none) (h4 : a = s.current_app) :
    ∀ (n : ℕ) (d : ℕ) (base hb : ℚ), base - hb = (d : ℚ) →
      ∃ (hb1 : ℚ) (ws : List PresenceWrite),
        full_run cfg ⟨s, hb⟩ (const_trace a base n) =
          Except.ok (⟨s, hb1⟩, [], ws) ∧ ws.length = hb_count n d ∧
        ∀ w ∈ ws, w.status = "Online" ∧ w.reason = none := by
  intro n
  induction n with
  | zero =>
      intro d base hb hd
      exact ⟨hb, [], rfl, rfl, by simp⟩
  | succ n ih =>
      intro d base hb hd
      have hstep := full_step_steady cfg s hb ⟨base, a, 0⟩ h1 h2 h3 h4
        (by norm_num [IDLE_THRESHOLD_SECONDS])
      by_cases hfire : (30:ℕ) ≤ d
      · have hge : base - hb ≥ HEARTBEAT_SECONDS := by
          rw [hd]
          unfold HEARTBEAT_SECONDS
          exact_mod_cast hfire
        have hhb : heartbeat_check base "Online" hb =
            (base, [⟨"Online", base, none⟩]) := by
          unfold heartbeat_check
          rw [if_pos hge]
        rw [hhb] at hstep
        obtain ⟨hb1, ws, hrun, hlen, hall⟩ := ih 1 (base+1) base
          (by push_cast; ring)
        refine ⟨hb1, ⟨"Online", base, none⟩ :: ws, ?_, ?_, ?_⟩
        · have := full_run_cons_ok hstep hrun
          rw [const_trace_succ]
          simpa using this
        · rw [hb_count_succ, if_pos hfire]
          simp [hlen]
        · intro w hw
          rcases List.mem_cons.mp hw with hweq | hwmem
          · subst hweq
            exact ⟨rfl, rfl⟩
          · exact hall w hwmem
      · have hnge : ¬ base - hb ≥ HEARTBEAT_SECONDS := by
          rw [hd]
          unfold HEARTBEAT_SECONDS
          intro hc
          exact hfire (by exact_mod_cast hc)
        have hhb : heartbeat_check base "Online" hb = (hb, []) := by
          unfold heartbeat_check
          rw [if_neg hnge]
        rw [hhb] at hstep
        obtain ⟨hb1, ws, hrun, hlen, hall⟩ := ih (d+1) (base+1) hb
          (by rw [show base + 1 - hb = (base - hb) + 1 by ring, hd]; push_cast; ring)
        refine ⟨hb1, ws, ?_, ?_, hall⟩
        · have := full_run_cons_ok hstep hrun
          rw [const_trace_succ]
          simpa using this
        · rw [hb_count_succ, if_neg hfire]
          exact hlen

end Claims6

section Claims7

open Tracking Dashboard Presence

set_option maxRecDepth 4000 in
/-- C1 (Presence Publisher modelled from the spec, absent from the src
tracker revision): a transition of the tracker's idle flag Idle-to-Active
publishes Online and Active-to-Idle publishes Idle at the tick instant; the
heartbeat re-asserts the current status with last_seen whenever
HEARTBEAT_SECONDS have elapsed since the last heartbeat, regardless of
transitions; and a whole 5-minute (300-tick) continuously-Active session
writes Online exactly once at startup, then exactly 10 heartbeat writes (at
least 9), all Online, and a final Offline write carrying the shutdown reason,
exactly once, alongside the single shutdown flush of the open segment. -/
theorem c1_presence_protocol :
    (∀ (cfg : Config) (fs : FullState) (smp : Sample) (fs1 : FullState)
        (incs : List Increment) (ws : List PresenceWrite),
      full_step cfg fs smp = Except.ok (fs1, incs, ws) →
        ((fs.trk.idle = true → fs1.trk.idle = false →
            (⟨"Online", smp.t, none⟩ : PresenceWrite) ∈ ws) ∧
         (fs.trk.idle = false → fs1.trk.idle = true →
            (⟨"Idle", smp.t, none⟩ : PresenceWrite) ∈ ws) ∧
         (smp.t - fs.last_heartbeat ≥ HEARTBEAT_SECONDS →
            (⟨status_of fs1.trk, smp.t, none⟩ : PresenceWrite) ∈ ws))) ∧
    (∀ (cfg : Config) (a reason : String) (t0 : ℚ), cfg.conn = Conn.ok →
      a ≠ "" → a ≠ "Unknown" →
      ∃ hbs : List PresenceWrite,
        full_session cfg a t0 (const_trace a (t0+1) 300) (t0+300) reason =
          Except.ok ([⟨cfg.user_id ++ "_" ++ cfg.date_of (t0+300),
              if a = "idle" then "total_idle_seconds"
              else "applications." ++ safe_app_name a,
              t0+300 - t0, cfg.user_id, cfg.date_of (t0+300)⟩],
            ⟨"Online", t0, none⟩ :: (hbs ++ [⟨"Offline", t0+300, some reason⟩])) ∧
          hbs.length = 10 ∧ 9 ≤ hbs.length ∧
          (∀ w ∈ hbs, w.status = "Online" ∧ w.reason = none)) := by
  constructor
  · intro cfg fs smp fs1 incs ws h
    unfold full_step at h
    cases hstep : step cfg fs.trk smp with
    | error e =>
        rw [hstep] at h
        cases h
    | ok p =>
        obtain ⟨trk1, incs0⟩ := p
        rw [hstep] at h
        simp only [Except.ok.injEq, Prod.mk.injEq] at h
        obtain ⟨hfs, hincs, hws⟩ := h
        subst hfs
        subst hws
        refine ⟨?_, ?_, ?_⟩
        · intro hidle1 hidle2
          simp only [FullState.trk] at hidle2
          simp [hidle1, hidle2, status_of]
        · intro hidle1 hidle2
          simp only [FullState.trk] at hidle2
          simp [hidle1, hidle2, status_of]
        · intro hhb
          simp only [FullState.trk]
          simp [heartbeat_check, hhb]
  · intro cfg a reason t0 hconn ha0 ha1
    obtain ⟨hb1, ws, hrun, hlen, hall⟩ := full_run_const_active cfg a
      ⟨a, t0, false, "", none⟩ rfl rfl rfl rfl 300 1 (t0+1) t0 (by push_cast; ring)
    have hten : hb_count 300 1 = 10 := by decide
    have hstop2 : stop cfg ⟨a, t0, false, "", none⟩ (t0+300) =
        Except.ok (some ⟨cfg.user_id ++ "_" ++ cfg.date_of (t0+300),
          if a = "idle" then "total_idle_seconds"
          else "applications." ++ safe_app_name a,
          t0+300 - t0, cfg.user_id, cfg.date_of (t0+300)⟩) := by
      rw [stop_active cfg ⟨a, t0, false, "", none⟩ (t0+300) rfl, hconn]
      rw [update_database_ok cfg.user_id (cfg.date_of (t0+300)) a (t0+300 - t0)
        (by push_neg
            refine ⟨?_, ha0, ha1⟩
            rw [show t0+300 - t0 = (300:ℚ) by ring]
            norm_num)]
    have hstopfull : stop_full cfg ⟨⟨a, t0, false, "", none⟩, hb1⟩ (t0+300) reason =
        Except.ok (some ⟨cfg.user_id ++ "_" ++ cfg.date_of (t0+300),
          if a = "idle" then "total_idle_seconds"
          else "applications." ++ safe_app_name a,
          t0+300 - t0, cfg.user_id, cfg.date_of (t0+300)⟩,
          [⟨"Offline", t0+300, some reason⟩]) := by
      unfold stop_full
      rw [hstop2]
    refine ⟨ws, ?_, hlen.trans hten, ?_, hall⟩
    · simp only [full_session, start_full, init_state, hrun, hstopfull]
      simp
    · rw [hlen, hten]
      norm_num

/-- C1 witness: the concrete 5-minute continuously-active session for
code.exe starting at t = 0 with reason "graceful exit". -/
theorem c1_presence_protocol_witness :
    ∃ hbs : List PresenceWrite,
      full_session cfg_ok "code.exe" 0 (const_trace "code.exe" (0+1) 300)
          (0+300) "graceful exit" =
        Except.ok ([⟨cfg_ok.user_id ++ "_" ++ cfg_ok.date_of (0+300),
            if "code.exe" = "idle" then "total_idle_seconds"
            else "applications." ++ safe_app_name "code.exe",
            0+300 - 0, cfg_ok.user_id, cfg_ok.date_of (0+300)⟩],
          ⟨"Online", 0, none⟩ ::
            (hbs ++ [⟨"Offline", 0+300, some "graceful exit"⟩])) ∧
        hbs.length = 10 ∧ 9 ≤ hbs.length ∧
        (∀ w ∈ hbs, w.status = "Online" ∧ w.reason = none) :=
  c1_presence_protocol.2 cfg_ok "code.exe" "graceful exit" 0 rfl
    (by decide) (by decide)

end Claims7
